import Mathlib

/-!
# Verification of the IPC project's specification against its source

This development shallowly embeds the parts of the
`inter-process-communication-project` C++ code that the specification's
claims are about, and proves or refutes each claim.

Components embedded:

* `SharedMemoryManager`'s readers-writers synchronization
  (`lockForRead`, `lockForWrite`, `unlock` in
  `backend/src/ipc/shmem_manager.cpp`) as an interleaving transition
  system over the shared segment state and the three-slot semaphore set.
* `SharedMemoryManager::unlock`'s release steps as an action trace.
* `IPCCoordinator`'s per-mechanism state and operations
  (`startMechanism`, `sendMessage`, `logMechanismActivity`, `getLogs`,
  `getMechanismStatus` in `backend/src/ipc/ipc_coordinator.cpp`).
* `SocketManager::sendMessage` / `receiveMessage` and
  `PipeManager::sendMessage` / `runChildLoop` framing and decoding.
* the two `SharedMemoryManager::semaphoreOp` variants (the blocking
  `semop` one and the bounded `semtimedop` one).
* `IPCCommand::fromJSON` validation.
-/

namespace IPCProject

/-! ## Readers-writers transition system (shmem_manager.cpp)

The shared segment (`SharedMemorySegment`) holds `reader_count` and
`is_writing`; the semaphore set holds `SEM_READER_MUTEX` (slot 1) and
`SEM_WRITE` (slot 2), both initialized to 1 (slot 0 is unused by the
locking code).  Any number of processes repeatedly run `lockForRead` /
`lockForWrite` followed by `unlock`.  Each C++ statement (one semaphore
operation or one access to a shared field) is one atomic step; a process
is identified only by its program location.

Program locations.  A process at `idle` holds nothing.  Reader locations
follow `lockForRead` line by line; `rU…` locations follow `unlock` as
executed after a read; `w…`/`wU…` follow `lockForWrite` and `unlock`
after a write.  `unlock` dispatches on the shared `is_writing` and
`reader_count` fields, so both families contain both branches of
`unlock`; the branches a correct run never takes are proved empty below.

The state counts how many processes sit at each location (`idle`, `r1`,
…), plus the shared fields: `rm` (= value of `SEM_READER_MUTEX`), `w`
(= value of `SEM_WRITE`), `cnt` (= `reader_count`), `writing`
(= `is_writing`). -/

structure RWState where
  rm : Nat
  w : Nat
  cnt : Nat
  writing : Bool
  idle : Nat
  r1 : Nat      -- after `semaphoreWait(SEM_READER_MUTEX)`, before `reader_count++`
  r1b : Nat     -- after `reader_count++`, before the `reader_count == 1` test
  r2w : Nat     -- first reader, before `semaphoreWait(SEM_WRITE)`
  r3 : Nat      -- before `semaphoreSignal(SEM_READER_MUTEX)`
  r4 : Nat      -- read critical section (the buffer copy in `readMessage`)
  ru0 : Nat     -- entered `unlock`, before the `is_writing` test
  ru1 : Nat     -- reader in the writer branch, before `is_writing = false`
  ru1b : Nat    -- reader in the writer branch, before `semaphoreSignal(SEM_WRITE)`
  ru2t : Nat    -- before the `reader_count > 0` test
  ru3 : Nat     -- before `semaphoreWait(SEM_READER_MUTEX)`
  ru4 : Nat     -- before `reader_count--`
  ru4b : Nat    -- after `reader_count--`, before the `reader_count == 0` test
  ru5 : Nat     -- last reader, before `semaphoreSignal(SEM_WRITE)`
  ru6 : Nat     -- before `semaphoreSignal(SEM_READER_MUTEX)`
  w1 : Nat      -- after `semaphoreWait(SEM_WRITE)`, before `is_writing = true`
  w2 : Nat      -- write critical section (the buffer copy in `writeMessage`)
  wu0 : Nat     -- entered `unlock`, before the `is_writing` test
  wu1 : Nat     -- writer in the writer branch, before `is_writing = false`
  wu1b : Nat    -- writer in the writer branch, before `semaphoreSignal(SEM_WRITE)`
  wu2t : Nat    -- writer before the `reader_count > 0` test
  wu3 : Nat     -- writer in the reader branch, before `semaphoreWait(SEM_READER_MUTEX)`
  wu4 : Nat     -- writer in the reader branch, before `reader_count--`
  wu4b : Nat    -- writer in the reader branch, before the `reader_count == 0` test
  wu5 : Nat     -- writer in the reader branch, before `semaphoreSignal(SEM_WRITE)`
  wu6 : Nat     -- writer in the reader branch, before `semaphoreSignal(SEM_READER_MUTEX)`
  deriving DecidableEq, Repr

/-- One atomic step of one process, at the granularity of one C++
statement of `lockForRead` / `lockForWrite` / `unlock`
(`shmem_manager.cpp` lines 260-323).  A semaphore wait may only fire
when the semaphore value is positive (otherwise `semop` blocks). -/
inductive RWStep : RWState → RWState → Prop where
  /-- `lockForRead` line 280: `semaphoreWait(SEM_READER_MUTEX)`. -/
  | readWaitReaderMutex (s : RWState) (hp : 0 < s.idle) (hg : 0 < s.rm) :
      RWStep s { s with rm := s.rm - 1, idle := s.idle - 1, r1 := s.r1 + 1 }
  /-- `lockForRead` line 282: `shared_segment_->reader_count++`. -/
  | readIncCount (s : RWState) (hp : 0 < s.r1) :
      RWStep s { s with cnt := s.cnt + 1, r1 := s.r1 - 1, r1b := s.r1b + 1 }
  /-- `lockForRead` line 283: the `reader_count == 1` test succeeds. -/
  | readFirstReader (s : RWState) (hp : 0 < s.r1b) (hg : s.cnt = 1) :
      RWStep s { s with r1b := s.r1b - 1, r2w := s.r2w + 1 }
  /-- `lockForRead` line 283: the `reader_count == 1` test fails. -/
  | readLaterReader (s : RWState) (hp : 0 < s.r1b) (hg : s.cnt ≠ 1) :
      RWStep s { s with r1b := s.r1b - 1, r3 := s.r3 + 1 }
  /-- `lockForRead` line 285: first reader's `semaphoreWait(SEM_WRITE)`. -/
  | readFirstWaitsWriteLock (s : RWState) (hp : 0 < s.r2w) (hg : 0 < s.w) :
      RWStep s { s with w := s.w - 1, r2w := s.r2w - 1, r3 := s.r3 + 1 }
  /-- `lockForRead` line 288: `semaphoreSignal(SEM_READER_MUTEX)`. -/
  | readSignalReaderMutex (s : RWState) (hp : 0 < s.r3) :
      RWStep s { s with rm := s.rm + 1, r3 := s.r3 - 1, r4 := s.r4 + 1 }
  /-- `readMessage` line 205-208: the buffer copy ends and `unlock` is called. -/
  | readFinish (s : RWState) (hp : 0 < s.r4) :
      RWStep s { s with r4 := s.r4 - 1, ru0 := s.ru0 + 1 }
  /-- `unlock` line 301 after a read: the `is_writing` test succeeds. -/
  | readUnlockSeesWriter (s : RWState) (hp : 0 < s.ru0) (hg : s.writing = true) :
      RWStep s { s with ru0 := s.ru0 - 1, ru1 := s.ru1 + 1 }
  /-- `unlock` line 303 after a read: `is_writing = false`. -/
  | readUnlockClearWriting (s : RWState) (hp : 0 < s.ru1) :
      RWStep s { s with writing := false, ru1 := s.ru1 - 1, ru1b := s.ru1b + 1 }
  /-- `unlock` line 304 after a read: `semaphoreSignal(SEM_WRITE)`. -/
  | readUnlockSignalWriteLock (s : RWState) (hp : 0 < s.ru1b) :
      RWStep s { s with w := s.w + 1, ru1b := s.ru1b - 1, idle := s.idle + 1 }
  /-- `unlock` line 301 after a read: the `is_writing` test fails. -/
  | readUnlockSeesNoWriter (s : RWState) (hp : 0 < s.ru0) (hg : s.writing = false) :
      RWStep s { s with ru0 := s.ru0 - 1, ru2t := s.ru2t + 1 }
  /-- `unlock` line 305 after a read: the `reader_count > 0` test succeeds. -/
  | readUnlockReaderPath (s : RWState) (hp : 0 < s.ru2t) (hg : 0 < s.cnt) :
      RWStep s { s with ru2t := s.ru2t - 1, ru3 := s.ru3 + 1 }
  /-- `unlock` line 305 after a read: the `reader_count > 0` test fails
  and `unlock` returns without touching anything. -/
  | readUnlockNoHolders (s : RWState) (hp : 0 < s.ru2t) (hg : s.cnt = 0) :
      RWStep s { s with ru2t := s.ru2t - 1, idle := s.idle + 1 }
  /-- `unlock` line 307 after a read: `semaphoreWait(SEM_READER_MUTEX)`. -/
  | readUnlockWaitReaderMutex (s : RWState) (hp : 0 < s.ru3) (hg : 0 < s.rm) :
      RWStep s { s with rm := s.rm - 1, ru3 := s.ru3 - 1, ru4 := s.ru4 + 1 }
  /-- `unlock` line 309 after a read: `shared_segment_->reader_count--`. -/
  | readUnlockDecCount (s : RWState) (hp : 0 < s.ru4) :
      RWStep s { s with cnt := s.cnt - 1, ru4 := s.ru4 - 1, ru4b := s.ru4b + 1 }
  /-- `unlock` line 310 after a read: the `reader_count == 0` test succeeds. -/
  | readUnlockLastReader (s : RWState) (hp : 0 < s.ru4b) (hg : s.cnt = 0) :
      RWStep s { s with ru4b := s.ru4b - 1, ru5 := s.ru5 + 1 }
  /-- `unlock` line 310 after a read: the `reader_count == 0` test fails. -/
  | readUnlockNotLastReader (s : RWState) (hp : 0 < s.ru4b) (hg : s.cnt ≠ 0) :
      RWStep s { s with ru4b := s.ru4b - 1, ru6 := s.ru6 + 1 }
  /-- `unlock` line 312 after a read: last reader's `semaphoreSignal(SEM_WRITE)`. -/
  | readUnlockLastSignalsWriteLock (s : RWState) (hp : 0 < s.ru5) :
      RWStep s { s with w := s.w + 1, ru5 := s.ru5 - 1, ru6 := s.ru6 + 1 }
  /-- `unlock` line 315 after a read: `semaphoreSignal(SEM_READER_MUTEX)`. -/
  | readUnlockSignalReaderMutex (s : RWState) (hp : 0 < s.ru6) :
      RWStep s { s with rm := s.rm + 1, ru6 := s.ru6 - 1, idle := s.idle + 1 }
  /-- `lockForWrite` line 265: `semaphoreWait(SEM_WRITE)`. -/
  | writeWaitWriteLock (s : RWState) (hp : 0 < s.idle) (hg : 0 < s.w) :
      RWStep s { s with w := s.w - 1, idle := s.idle - 1, w1 := s.w1 + 1 }
  /-- `lockForWrite` line 266: `shared_segment_->is_writing = true`. -/
  | writeSetWriting (s : RWState) (hp : 0 < s.w1) :
      RWStep s { s with writing := true, w1 := s.w1 - 1, w2 := s.w2 + 1 }
  /-- `writeMessage` line 168-174: the buffer copy ends and `unlock` is called. -/
  | writeFinish (s : RWState) (hp : 0 < s.w2) :
      RWStep s { s with w2 := s.w2 - 1, wu0 := s.wu0 + 1 }
  /-- `unlock` line 301 after a write: the `is_writing` test succeeds. -/
  | writeUnlockSeesWriter (s : RWState) (hp : 0 < s.wu0) (hg : s.writing = true) :
      RWStep s { s with wu0 := s.wu0 - 1, wu1 := s.wu1 + 1 }
  /-- `unlock` line 303 after a write: `is_writing = false`. -/
  | writeUnlockClearWriting (s : RWState) (hp : 0 < s.wu1) :
      RWStep s { s with writing := false, wu1 := s.wu1 - 1, wu1b := s.wu1b + 1 }
  /-- `unlock` line 304 after a write: `semaphoreSignal(SEM_WRITE)`. -/
  | writeUnlockSignalWriteLock (s : RWState) (hp : 0 < s.wu1b) :
      RWStep s { s with w := s.w + 1, wu1b := s.wu1b - 1, idle := s.idle + 1 }
  /-- `unlock` line 301 after a write: the `is_writing` test fails. -/
  | writeUnlockSeesNoWriter (s : RWState) (hp : 0 < s.wu0) (hg : s.writing = false) :
      RWStep s { s with wu0 := s.wu0 - 1, wu2t := s.wu2t + 1 }
  /-- `unlock` line 305 after a write: the `reader_count > 0` test succeeds. -/
  | writeUnlockReaderPath (s : RWState) (hp : 0 < s.wu2t) (hg : 0 < s.cnt) :
      RWStep s { s with wu2t := s.wu2t - 1, wu3 := s.wu3 + 1 }
  /-- `unlock` line 305 after a write: the `reader_count > 0` test fails. -/
  | writeUnlockNoHolders (s : RWState) (hp : 0 < s.wu2t) (hg : s.cnt = 0) :
      RWStep s { s with wu2t := s.wu2t - 1, idle := s.idle + 1 }
  /-- `unlock` line 307 after a write: `semaphoreWait(SEM_READER_MUTEX)`. -/
  | writeUnlockWaitReaderMutex (s : RWState) (hp : 0 < s.wu3) (hg : 0 < s.rm) :
      RWStep s { s with rm := s.rm - 1, wu3 := s.wu3 - 1, wu4 := s.wu4 + 1 }
  /-- `unlock` line 309 after a write: `shared_segment_->reader_count--`. -/
  | writeUnlockDecCount (s : RWState) (hp : 0 < s.wu4) :
      RWStep s { s with cnt := s.cnt - 1, wu4 := s.wu4 - 1, wu4b := s.wu4b + 1 }
  /-- `unlock` line 310 after a write: the `reader_count == 0` test succeeds. -/
  | writeUnlockLastReader (s : RWState) (hp : 0 < s.wu4b) (hg : s.cnt = 0) :
      RWStep s { s with wu4b := s.wu4b - 1, wu5 := s.wu5 + 1 }
  /-- `unlock` line 310 after a write: the `reader_count == 0` test fails. -/
  | writeUnlockNotLastReader (s : RWState) (hp : 0 < s.wu4b) (hg : s.cnt ≠ 0) :
      RWStep s { s with wu4b := s.wu4b - 1, wu6 := s.wu6 + 1 }
  /-- `unlock` line 312 after a write: `semaphoreSignal(SEM_WRITE)`. -/
  | writeUnlockLastSignalsWriteLock (s : RWState) (hp : 0 < s.wu5) :
      RWStep s { s with w := s.w + 1, wu5 := s.wu5 - 1, wu6 := s.wu6 + 1 }
  /-- `unlock` line 315 after a write: `semaphoreSignal(SEM_READER_MUTEX)`. -/
  | writeUnlockSignalReaderMutex (s : RWState) (hp : 0 < s.wu6) :
      RWStep s { s with rm := s.rm + 1, wu6 := s.wu6 - 1, idle := s.idle + 1 }

/-- The initial state written by `createSharedMemory` /
`createSemaphores` (lines 100-105 and 336-343): both lock semaphores at
1, `reader_count = 0`, `is_writing = false`, and `n` processes not yet
engaged in any operation. -/
def rwInit (n : Nat) : RWState where
  rm := 1
  w := 1
  cnt := 0
  writing := false
  idle := n
  r1 := 0
  r1b := 0
  r2w := 0
  r3 := 0
  r4 := 0
  ru0 := 0
  ru1 := 0
  ru1b := 0
  ru2t := 0
  ru3 := 0
  ru4 := 0
  ru4b := 0
  ru5 := 0
  ru6 := 0
  w1 := 0
  w2 := 0
  wu0 := 0
  wu1 := 0
  wu1b := 0
  wu2t := 0
  wu3 := 0
  wu4 := 0
  wu4b := 0
  wu5 := 0
  wu6 := 0

/-- States reachable by interleaving `lockForRead` / `lockForWrite` /
`unlock` steps of `n` processes from the freshly created segment. -/
inductive RWReachable (n : Nat) : RWState → Prop where
  | init : RWReachable n (rwInit n)
  | step {s t : RWState} : RWReachable n s → RWStep s t → RWReachable n t

/-- Number of readers currently holding read access: past the
first-reader `semaphoreWait(SEM_WRITE)` point of `lockForRead` (or
admitted alongside such a reader) and before the last-reader
`semaphoreSignal(SEM_WRITE)` of `unlock`. -/
def readersHolding (s : RWState) : Nat :=
  s.r3 + s.r4 + s.ru0 + s.ru2t + s.ru3 + s.ru4 + s.ru4b + s.ru5

/-- The inductive invariant of the readers-writers system:
token counts for both semaphores, the meaning of `reader_count` and
`is_writing` in terms of program locations, and emptiness of the
`unlock` branches a correct caller never takes. -/
def RWInv (s : RWState) : Prop :=
  s.rm + (s.r1 + s.r1b + s.r2w + s.r3 + s.ru4 + s.ru4b + s.ru5 + s.ru6) = 1 ∧
  s.cnt = s.r1b + s.r2w + s.r3 + s.r4 + s.ru0 + s.ru2t + s.ru3 + s.ru4 ∧
  (readersHolding s = 0 → s.w + (s.w1 + s.w2 + s.wu0 + s.wu1 + s.wu1b) = 1) ∧
  (0 < readersHolding s → s.w + (s.w1 + s.w2 + s.wu0 + s.wu1 + s.wu1b) = 0) ∧
  (s.writing = true → 0 < s.w2 + s.wu0 + s.wu1) ∧
  (s.writing = false → s.w2 + s.wu0 + s.wu1 = 0) ∧
  (0 < s.ru5 → s.cnt = 0) ∧
  s.ru1 = 0 ∧ s.ru1b = 0 ∧ s.wu2t = 0 ∧ s.wu3 = 0 ∧ s.wu4 = 0 ∧
  s.wu4b = 0 ∧ s.wu5 = 0 ∧ s.wu6 = 0

theorem rwInv_init (n : Nat) : RWInv (rwInit n) := by
  simp [RWInv, rwInit, readersHolding]

set_option maxHeartbeats 2000000 in
set_option linter.unreachableTactic false in
set_option linter.unusedTactic false in
set_option linter.unnecessarySeqFocus false in
/-- Preservation: every atomic step of the readers-writers protocol
keeps the invariant. -/
theorem rwInv_step : ∀ {a b : RWState}, RWStep a b → RWInv a → RWInv b
  | _, _, .readWaitReaderMutex s hp hg, h => by
      cases hb : s.writing <;>
        simp only [RWInv, readersHolding, hb, Bool.false_eq_true, Bool.true_eq_false, eq_self_iff_true, false_implies, true_implies] at h ⊢ <;>
        refine ⟨?_, ?_, ?_, ?_, ?_, ?_, ?_, ?_, ?_, ?_, ?_, ?_, ?_, ?_, ?_⟩ <;>
        first
          | trivial
          | omega
          | (intro h0; omega)
  | _, _, .readIncCount s hp, h => by
      cases hb : s.writing <;>
        simp only [RWInv, readersHolding, hb, Bool.false_eq_true, Bool.true_eq_false, eq_self_iff_true, false_implies, true_implies] at h ⊢ <;>
        refine ⟨?_, ?_, ?_, ?_, ?_, ?_, ?_, ?_, ?_, ?_, ?_, ?_, ?_, ?_, ?_⟩ <;>
        first
          | trivial
          | omega
          | (intro h0; omega)
  | _, _, .readFirstReader s hp hg, h => by
      cases hb : s.writing <;>
        simp only [RWInv, readersHolding, hb, Bool.false_eq_true, Bool.true_eq_false, eq_self_iff_true, false_implies, true_implies] at h ⊢ <;>
        refine ⟨?_, ?_, ?_, ?_, ?_, ?_, ?_, ?_, ?_, ?_, ?_, ?_, ?_, ?_, ?_⟩ <;>
        first
          | trivial
          | omega
          | (intro h0; omega)
  | _, _, .readLaterReader s hp hg, h => by
      cases hb : s.writing <;>
        simp only [RWInv, readersHolding, hb, Bool.false_eq_true, Bool.true_eq_false, eq_self_iff_true, false_implies, true_implies] at h ⊢ <;>
        refine ⟨?_, ?_, ?_, ?_, ?_, ?_, ?_, ?_, ?_, ?_, ?_, ?_, ?_, ?_, ?_⟩ <;>
        first
          | trivial
          | omega
          | (intro h0; omega)
  | _, _, .readFirstWaitsWriteLock s hp hg, h => by
      cases hb : s.writing <;>
        simp only [RWInv, readersHolding, hb, Bool.false_eq_true, Bool.true_eq_false, eq_self_iff_true, false_implies, true_implies] at h ⊢ <;>
        refine ⟨?_, ?_, ?_, ?_, ?_, ?_, ?_, ?_, ?_, ?_, ?_, ?_, ?_, ?_, ?_⟩ <;>
        first
          | trivial
          | omega
          | (intro h0; omega)
  | _, _, .readSignalReaderMutex s hp, h => by
      cases hb : s.writing <;>
        simp only [RWInv, readersHolding, hb, Bool.false_eq_true, Bool.true_eq_false, eq_self_iff_true, false_implies, true_implies] at h ⊢ <;>
        refine ⟨?_, ?_, ?_, ?_, ?_, ?_, ?_, ?_, ?_, ?_, ?_, ?_, ?_, ?_, ?_⟩ <;>
        first
          | trivial
          | omega
          | (intro h0; omega)
  | _, _, .readFinish s hp, h => by
      cases hb : s.writing <;>
        simp only [RWInv, readersHolding, hb, Bool.false_eq_true, Bool.true_eq_false, eq_self_iff_true, false_implies, true_implies] at h ⊢ <;>
        refine ⟨?_, ?_, ?_, ?_, ?_, ?_, ?_, ?_, ?_, ?_, ?_, ?_, ?_, ?_, ?_⟩ <;>
        first
          | trivial
          | omega
          | (intro h0; omega)
  | _, _, .readUnlockSeesWriter s hp hg, h => by
      cases hb : s.writing <;>
        simp only [RWInv, readersHolding, hb, Bool.false_eq_true, Bool.true_eq_false, eq_self_iff_true, false_implies, true_implies] at h hg ⊢ <;>
        refine ⟨?_, ?_, ?_, ?_, ?_, ?_, ?_, ?_, ?_, ?_, ?_, ?_, ?_, ?_, ?_⟩ <;>
        first
          | trivial
          | omega
          | (intro h0; omega)
  | _, _, .readUnlockClearWriting s hp, h => by
      cases hb : s.writing <;>
        simp only [RWInv, readersHolding, hb, Bool.false_eq_true, Bool.true_eq_false, eq_self_iff_true, false_implies, true_implies] at h ⊢ <;>
        refine ⟨?_, ?_, ?_, ?_, ?_, ?_, ?_, ?_, ?_, ?_, ?_, ?_, ?_, ?_, ?_⟩ <;>
        first
          | trivial
          | omega
          | (intro h0; omega)
  | _, _, .readUnlockSignalWriteLock s hp, h => by
      cases hb : s.writing <;>
        simp only [RWInv, readersHolding, hb, Bool.false_eq_true, Bool.true_eq_false, eq_self_iff_true, false_implies, true_implies] at h ⊢ <;>
        refine ⟨?_, ?_, ?_, ?_, ?_, ?_, ?_, ?_, ?_, ?_, ?_, ?_, ?_, ?_, ?_⟩ <;>
        first
          | trivial
          | omega
          | (intro h0; omega)
  | _, _, .readUnlockSeesNoWriter s hp hg, h => by
      cases hb : s.writing <;>
        simp only [RWInv, readersHolding, hb, Bool.false_eq_true, Bool.true_eq_false, eq_self_iff_true, false_implies, true_implies] at h hg ⊢ <;>
        refine ⟨?_, ?_, ?_, ?_, ?_, ?_, ?_, ?_, ?_, ?_, ?_, ?_, ?_, ?_, ?_⟩ <;>
        first
          | trivial
          | omega
          | (intro h0; omega)
  | _, _, .readUnlockReaderPath s hp hg, h => by
      cases hb : s.writing <;>
        simp only [RWInv, readersHolding, hb, Bool.false_eq_true, Bool.true_eq_false, eq_self_iff_true, false_implies, true_implies] at h ⊢ <;>
        refine ⟨?_, ?_, ?_, ?_, ?_, ?_, ?_, ?_, ?_, ?_, ?_, ?_, ?_, ?_, ?_⟩ <;>
        first
          | trivial
          | omega
          | (intro h0; omega)
  | _, _, .readUnlockNoHolders s hp hg, h => by
      cases hb : s.writing <;>
        simp only [RWInv, readersHolding, hb, Bool.false_eq_true, Bool.true_eq_false, eq_self_iff_true, false_implies, true_implies] at h ⊢ <;>
        refine ⟨?_, ?_, ?_, ?_, ?_, ?_, ?_, ?_, ?_, ?_, ?_, ?_, ?_, ?_, ?_⟩ <;>
        first
          | trivial
          | omega
          | (intro h0; omega)
  | _, _, .readUnlockWaitReaderMutex s hp hg, h => by
      cases hb : s.writing <;>
        simp only [RWInv, readersHolding, hb, Bool.false_eq_true, Bool.true_eq_false, eq_self_iff_true, false_implies, true_implies] at h ⊢ <;>
        refine ⟨?_, ?_, ?_, ?_, ?_, ?_, ?_, ?_, ?_, ?_, ?_, ?_, ?_, ?_, ?_⟩ <;>
        first
          | trivial
          | omega
          | (intro h0; omega)
  | _, _, .readUnlockDecCount s hp, h => by
      cases hb : s.writing <;>
        simp only [RWInv, readersHolding, hb, Bool.false_eq_true, Bool.true_eq_false, eq_self_iff_true, false_implies, true_implies] at h ⊢ <;>
        refine ⟨?_, ?_, ?_, ?_, ?_, ?_, ?_, ?_, ?_, ?_, ?_, ?_, ?_, ?_, ?_⟩ <;>
        first
          | trivial
          | omega
          | (intro h0; omega)
  | _, _, .readUnlockLastReader s hp hg, h => by
      cases hb : s.writing <;>
        simp only [RWInv, readersHolding, hb, Bool.false_eq_true, Bool.true_eq_false, eq_self_iff_true, false_implies, true_implies] at h ⊢ <;>
        refine ⟨?_, ?_, ?_, ?_, ?_, ?_, ?_, ?_, ?_, ?_, ?_, ?_, ?_, ?_, ?_⟩ <;>
        first
          | trivial
          | omega
          | (intro h0; omega)
  | _, _, .readUnlockNotLastReader s hp hg, h => by
      cases hb : s.writing <;>
        simp only [RWInv, readersHolding, hb, Bool.false_eq_true, Bool.true_eq_false, eq_self_iff_true, false_implies, true_implies] at h ⊢ <;>
        refine ⟨?_, ?_, ?_, ?_, ?_, ?_, ?_, ?_, ?_, ?_, ?_, ?_, ?_, ?_, ?_⟩ <;>
        first
          | trivial
          | omega
          | (intro h0; omega)
  | _, _, .readUnlockLastSignalsWriteLock s hp, h => by
      cases hb : s.writing <;>
        simp only [RWInv, readersHolding, hb, Bool.false_eq_true, Bool.true_eq_false, eq_self_iff_true, false_implies, true_implies] at h ⊢ <;>
        refine ⟨?_, ?_, ?_, ?_, ?_, ?_, ?_, ?_, ?_, ?_, ?_, ?_, ?_, ?_, ?_⟩ <;>
        first
          | trivial
          | omega
          | (intro h0; omega)
  | _, _, .readUnlockSignalReaderMutex s hp, h => by
      cases hb : s.writing <;>
        simp only [RWInv, readersHolding, hb, Bool.false_eq_true, Bool.true_eq_false, eq_self_iff_true, false_implies, true_implies] at h ⊢ <;>
        refine ⟨?_, ?_, ?_, ?_, ?_, ?_, ?_, ?_, ?_, ?_, ?_, ?_, ?_, ?_, ?_⟩ <;>
        first
          | trivial
          | omega
          | (intro h0; omega)
  | _, _, .writeWaitWriteLock s hp hg, h => by
      cases hb : s.writing <;>
        simp only [RWInv, readersHolding, hb, Bool.false_eq_true, Bool.true_eq_false, eq_self_iff_true, false_implies, true_implies] at h ⊢ <;>
        refine ⟨?_, ?_, ?_, ?_, ?_, ?_, ?_, ?_, ?_, ?_, ?_, ?_, ?_, ?_, ?_⟩ <;>
        first
          | trivial
          | omega
          | (intro h0; omega)
  | _, _, .writeSetWriting s hp, h => by
      cases hb : s.writing <;>
        simp only [RWInv, readersHolding, hb, Bool.false_eq_true, Bool.true_eq_false, eq_self_iff_true, false_implies, true_implies] at h ⊢ <;>
        refine ⟨?_, ?_, ?_, ?_, ?_, ?_, ?_, ?_, ?_, ?_, ?_, ?_, ?_, ?_, ?_⟩ <;>
        first
          | trivial
          | omega
          | (intro h0; omega)
  | _, _, .writeFinish s hp, h => by
      cases hb : s.writing <;>
        simp only [RWInv, readersHolding, hb, Bool.false_eq_true, Bool.true_eq_false, eq_self_iff_true, false_implies, true_implies] at h ⊢ <;>
        refine ⟨?_, ?_, ?_, ?_, ?_, ?_, ?_, ?_, ?_, ?_, ?_, ?_, ?_, ?_, ?_⟩ <;>
        first
          | trivial
          | omega
          | (intro h0; omega)
  | _, _, .writeUnlockSeesWriter s hp hg, h => by
      cases hb : s.writing <;>
        simp only [RWInv, readersHolding, hb, Bool.false_eq_true, Bool.true_eq_false, eq_self_iff_true, false_implies, true_implies] at h hg ⊢ <;>
        refine ⟨?_, ?_, ?_, ?_, ?_, ?_, ?_, ?_, ?_, ?_, ?_, ?_, ?_, ?_, ?_⟩ <;>
        first
          | trivial
          | omega
          | (intro h0; omega)
  | _, _, .writeUnlockClearWriting s hp, h => by
      cases hb : s.writing <;>
        simp only [RWInv, readersHolding, hb, Bool.false_eq_true, Bool.true_eq_false, eq_self_iff_true, false_implies, true_implies] at h ⊢ <;>
        refine ⟨?_, ?_, ?_, ?_, ?_, ?_, ?_, ?_, ?_, ?_, ?_, ?_, ?_, ?_, ?_⟩ <;>
        first
          | trivial
          | omega
          | (intro h0; omega)
  | _, _, .writeUnlockSignalWriteLock s hp, h => by
      cases hb : s.writing <;>
        simp only [RWInv, readersHolding, hb, Bool.false_eq_true, Bool.true_eq_false, eq_self_iff_true, false_implies, true_implies] at h ⊢ <;>
        refine ⟨?_, ?_, ?_, ?_, ?_, ?_, ?_, ?_, ?_, ?_, ?_, ?_, ?_, ?_, ?_⟩ <;>
        first
          | trivial
          | omega
          | (intro h0; omega)
  | _, _, .writeUnlockSeesNoWriter s hp hg, h => by
      cases hb : s.writing <;>
        simp only [RWInv, readersHolding, hb, Bool.false_eq_true, Bool.true_eq_false, eq_self_iff_true, false_implies, true_implies] at h hg ⊢ <;>
        refine ⟨?_, ?_, ?_, ?_, ?_, ?_, ?_, ?_, ?_, ?_, ?_, ?_, ?_, ?_, ?_⟩ <;>
        first
          | trivial
          | omega
          | (intro h0; omega)
  | _, _, .writeUnlockReaderPath s hp hg, h => by
      cases hb : s.writing <;>
        simp only [RWInv, readersHolding, hb, Bool.false_eq_true, Bool.true_eq_false, eq_self_iff_true, false_implies, true_implies] at h ⊢ <;>
        refine ⟨?_, ?_, ?_, ?_, ?_, ?_, ?_, ?_, ?_, ?_, ?_, ?_, ?_, ?_, ?_⟩ <;>
        first
          | trivial
          | omega
          | (intro h0; omega)
  | _, _, .writeUnlockNoHolders s hp hg, h => by
      cases hb : s.writing <;>
        simp only [RWInv, readersHolding, hb, Bool.false_eq_true, Bool.true_eq_false, eq_self_iff_true, false_implies, true_implies] at h ⊢ <;>
        refine ⟨?_, ?_, ?_, ?_, ?_, ?_, ?_, ?_, ?_, ?_, ?_, ?_, ?_, ?_, ?_⟩ <;>
        first
          | trivial
          | omega
          | (intro h0; omega)
  | _, _, .writeUnlockWaitReaderMutex s hp hg, h => by
      cases hb : s.writing <;>
        simp only [RWInv, readersHolding, hb, Bool.false_eq_true, Bool.true_eq_false, eq_self_iff_true, false_implies, true_implies] at h ⊢ <;>
        refine ⟨?_, ?_, ?_, ?_, ?_, ?_, ?_, ?_, ?_, ?_, ?_, ?_, ?_, ?_, ?_⟩ <;>
        first
          | trivial
          | omega
          | (intro h0; omega)
  | _, _, .writeUnlockDecCount s hp, h => by
      cases hb : s.writing <;>
        simp only [RWInv, readersHolding, hb, Bool.false_eq_true, Bool.true_eq_false, eq_self_iff_true, false_implies, true_implies] at h ⊢ <;>
        refine ⟨?_, ?_, ?_, ?_, ?_, ?_, ?_, ?_, ?_, ?_, ?_, ?_, ?_, ?_, ?_⟩ <;>
        first
          | trivial
          | omega
          | (intro h0; omega)
  | _, _, .writeUnlockLastReader s hp hg, h => by
      cases hb : s.writing <;>
        simp only [RWInv, readersHolding, hb, Bool.false_eq_true, Bool.true_eq_false, eq_self_iff_true, false_implies, true_implies] at h ⊢ <;>
        refine ⟨?_, ?_, ?_, ?_, ?_, ?_, ?_, ?_, ?_, ?_, ?_, ?_, ?_, ?_, ?_⟩ <;>
        first
          | trivial
          | omega
          | (intro h0; omega)
  | _, _, .writeUnlockNotLastReader s hp hg, h => by
      cases hb : s.writing <;>
        simp only [RWInv, readersHolding, hb, Bool.false_eq_true, Bool.true_eq_false, eq_self_iff_true, false_implies, true_implies] at h ⊢ <;>
        refine ⟨?_, ?_, ?_, ?_, ?_, ?_, ?_, ?_, ?_, ?_, ?_, ?_, ?_, ?_, ?_⟩ <;>
        first
          | trivial
          | omega
          | (intro h0; omega)
  | _, _, .writeUnlockLastSignalsWriteLock s hp, h => by
      cases hb : s.writing <;>
        simp only [RWInv, readersHolding, hb, Bool.false_eq_true, Bool.true_eq_false, eq_self_iff_true, false_implies, true_implies] at h ⊢ <;>
        refine ⟨?_, ?_, ?_, ?_, ?_, ?_, ?_, ?_, ?_, ?_, ?_, ?_, ?_, ?_, ?_⟩ <;>
        first
          | trivial
          | omega
          | (intro h0; omega)
  | _, _, .writeUnlockSignalReaderMutex s hp, h => by
      cases hb : s.writing <;>
        simp only [RWInv, readersHolding, hb, Bool.false_eq_true, Bool.true_eq_false, eq_self_iff_true, false_implies, true_implies] at h ⊢ <;>
        refine ⟨?_, ?_, ?_, ?_, ?_, ?_, ?_, ?_, ?_, ?_, ?_, ?_, ?_, ?_, ?_⟩ <;>
        first
          | trivial
          | omega
          | (intro h0; omega)


/-- Every reachable state of the readers-writers system satisfies the
inductive invariant. -/
theorem rwInv_reachable {n : Nat} {s : RWState} (h : RWReachable n s) : RWInv s := by
  induction h with
  | init => exact rwInv_init n
  | step _ hstep ih => exact rwInv_step hstep ih

/-- A concrete reachable state refuting the claim as stated: a writer
holds the write lock (`is_writing = true`) while an arriving first
reader has already incremented `reader_count` inside `lockForRead` but
has not yet blocked on `SEM_WRITE`. -/
def rwBadState : RWState where
  rm := 0
  w := 0
  cnt := 1
  writing := true
  idle := 0
  r1 := 0
  r1b := 1
  r2w := 0
  r3 := 0
  r4 := 0
  ru0 := 0
  ru1 := 0
  ru1b := 0
  ru2t := 0
  ru3 := 0
  ru4 := 0
  ru4b := 0
  ru5 := 0
  ru6 := 0
  w1 := 0
  w2 := 1
  wu0 := 0
  wu1 := 0
  wu1b := 0
  wu2t := 0
  wu3 := 0
  wu4 := 0
  wu4b := 0
  wu5 := 0
  wu6 := 0

/-- C1, counterexample: with two processes, the interleaving
"writer completes `lockForWrite`; reader enters `lockForRead`, acquires
`SEM_READER_MUTEX` and increments `reader_count`" reaches a state where
`is_writing` is true and `reader_count` is positive, so the claimed
invariant over all interleavings is false. -/
theorem C1_counterexample :
    RWReachable 2 rwBadState ∧ rwBadState.writing = true ∧ 0 < rwBadState.cnt := by
  refine ⟨?_, rfl, by decide⟩
  exact
    RWReachable.step
      (RWReachable.step
        (RWReachable.step
          (RWReachable.step RWReachable.init
            (RWStep.writeWaitWriteLock (rwInit 2) (by decide) (by decide)))
          (RWStep.writeSetWriting _ (by decide)))
        (RWStep.readWaitReaderMutex _ (by decide) (by decide)))
      (RWStep.readIncCount _ (by decide))

/-- C1, amended: in every reachable interleaving of the
`SharedMemoryManager` operations, the segment's `is_writing` flag and
the number of readers actually holding read access (past the
first-reader `semaphoreWait(SEM_WRITE)` of `lockForRead` and before the
last-reader `semaphoreSignal(SEM_WRITE)` of `unlock`) are never
simultaneously true and positive.  The raw `reader_count` field,
however, may be positive while a writer is active, because an arriving
first reader increments it before blocking (see `C1_counterexample`). -/
theorem C1_writer_excludes_readers {n : Nat} {s : RWState}
    (h : RWReachable n s) (hw : s.writing = true) : readersHolding s = 0 := by
  obtain ⟨-, -, -, h4, h5, -⟩ := rwInv_reachable h
  have hx := h5 hw
  by_contra hne
  have := h4 (Nat.pos_of_ne_zero hne)
  omega

/-- C1, witness: a concrete reachable state with an active writer, at
which the amended mutual-exclusion theorem applies. -/
def rwWriterState : RWState where
  rm := 1
  w := 0
  cnt := 0
  writing := true
  idle := 0
  r1 := 0
  r1b := 0
  r2w := 0
  r3 := 0
  r4 := 0
  ru0 := 0
  ru1 := 0
  ru1b := 0
  ru2t := 0
  ru3 := 0
  ru4 := 0
  ru4b := 0
  ru5 := 0
  ru6 := 0
  w1 := 0
  w2 := 1
  wu0 := 0
  wu1 := 0
  wu1b := 0
  wu2t := 0
  wu3 := 0
  wu4 := 0
  wu4b := 0
  wu5 := 0
  wu6 := 0

theorem C1_writer_excludes_readers_witness :
    RWReachable 1 rwWriterState ∧ readersHolding rwWriterState = 0 := by
  have hreach : RWReachable 1 rwWriterState :=
    RWReachable.step
      (RWReachable.step RWReachable.init
        (RWStep.writeWaitWriteLock (rwInit 1) (by decide) (by decide)))
      (RWStep.writeSetWriting _ (by decide))
  exact ⟨hreach, C1_writer_excludes_readers hreach rfl⟩

/-! ## The release steps of `unlock` as an action trace (C6)

`SharedMemoryManager::unlock` (shmem_manager.cpp lines 297-323) is a
straight-line dispatch on the shared `is_writing` flag and
`reader_count`; `unlockActions` lists, in order, the primitive
operations it performs.  `reader_count` is a C `int`, so it is embedded
as `Int`. -/

inductive SemAction where
  | waitReaderMutex
  | signalReaderMutex
  | waitWriteLock
  | signalWriteLock
  | clearWriting
  | decReaderCount
  deriving DecidableEq, Repr

/-- The sequence of primitive operations performed by one call to
`unlock`, as a function of the segment's `is_writing` flag and
`reader_count` at entry (translated from shmem_manager.cpp 297-323). -/
def unlockActions (writing : Bool) (reader_count : Int) : List SemAction :=
  if writing then
    [SemAction.clearWriting, SemAction.signalWriteLock]
  else if 0 < reader_count then
    [SemAction.waitReaderMutex, SemAction.decReaderCount] ++
      (if reader_count - 1 = 0 then [SemAction.signalWriteLock] else []) ++
      [SemAction.signalReaderMutex]
  else
    []

/-! ## Coordinator state and operations (ipc_coordinator.cpp) -/

/-- The three mechanism identifiers (`IPCMechanism` in
ipc_coordinator.h). -/
inductive IPCMechanism where
  | pipes
  | sockets
  | shared_memory
  deriving DecidableEq, Repr

/-- `IPCCoordinator::mechanismToString` (lines 565-572). -/
def mechanismToString : IPCMechanism → String
  | IPCMechanism.pipes => "pipes"
  | IPCMechanism.sockets => "sockets"
  | IPCMechanism.shared_memory => "shared_memory"

/-- The coordinator's per-mechanism mutable maps
(`mechanism_status_`, `message_counts_`, `mechanism_logs_`,
`mechanism_pids_`) plus each manager's `isActive()` flag, which the
coordinator consults before delegating. -/
structure CoordState where
  mechanism_status : IPCMechanism → Bool
  message_counts : IPCMechanism → Nat
  mechanism_logs : IPCMechanism → List String
  mechanism_pids : IPCMechanism → Option Int
  manager_active : IPCMechanism → Bool

/-- `IPCCoordinator::logMechanismActivity` (lines 663-673): append the
entry, then drop the oldest entry if the ring now exceeds 1,000. -/
def logMechanismActivity (logs : List String) (entry : String) : List String :=
  let grown := logs ++ [entry]
  if 1000 < grown.length then grown.tail else grown

/-- `IPCCoordinator::getLogs` (lines 703-707): the last `count` retained
entries. -/
def getLogs (logs : List String) (count : Nat) : List String :=
  logs.drop (logs.length - count)

/-- `IPCCoordinator::startMechanism` (lines 247-286).  `createOk` is the
outcome of the delegated create routine (`initializePipes` /
`initializeSockets` / `initializeSharedMemory`); `entry` is the
timestamped `started` log line.  Returns the boolean result, the new
coordinator state, and whether the create routine was invoked. -/
def startMechanism (st : CoordState) (m : IPCMechanism) (createOk : Bool)
    (entry : String) : Bool × CoordState × Bool :=
  if st.mechanism_status m then
    (true, st, false)
  else if createOk then
    (true,
      { st with
        mechanism_status := fun m' => if m' = m then true else st.mechanism_status m'
        manager_active := fun m' => if m' = m then true else st.manager_active m'
        mechanism_logs := fun m' =>
          if m' = m then logMechanismActivity (st.mechanism_logs m') entry
          else st.mechanism_logs m' },
      true)
  else
    (false, st, true)

/-- `IPCCoordinator::sendMessage` (lines 345-382).  `mgrSendOk` is the
outcome of the delegated manager send; `entry` is the timestamped
`message_sent` log line.  An inactive mechanism is rejected before
anything is touched; a successful delegated send increments the
sent-counter and appends a log entry. -/
def sendMessage (st : CoordState) (m : IPCMechanism) (mgrSendOk : Bool)
    (entry : String) : Bool × CoordState :=
  if st.mechanism_status m = false then
    (false, st)
  else
    let success := st.manager_active m && mgrSendOk
    if success then
      (true,
        { st with
          message_counts := fun m' =>
            if m' = m then st.message_counts m' + 1 else st.message_counts m'
          mechanism_logs := fun m' =>
            if m' = m then logMechanismActivity (st.mechanism_logs m') entry
            else st.mechanism_logs m' })
    else
      (false, st)

/-- The status payload assembled by `IPCCoordinator::getMechanismStatus`
(`MechanismStatus` in ipc_coordinator.h). -/
structure MechanismStatus where
  type : IPCMechanism
  name : String
  is_active : Bool
  is_running : Bool
  process_pid : Int
  messages_sent : Nat
  messages_received : Nat

/-- `IPCCoordinator::getMechanismStatus` (lines 441-461).  `aliveProbe`
stands for `isProcessAlive` (a `kill(pid, 0)` probe).  The
`messages_received` field is assigned the constant 0 (line 458,
"simplificado por agora"). -/
def getMechanismStatus (st : CoordState) (m : IPCMechanism)
    (aliveProbe : Int → Bool) : MechanismStatus :=
  { type := m
    name := mechanismToString m
    is_active := st.mechanism_status m
    is_running := match st.mechanism_pids m with
      | some pid => aliveProbe pid
      | none => false
    process_pid := (st.mechanism_pids m).getD 0
    messages_sent := st.message_counts m
    messages_received := 0 }

/-! ## Theorems for claims C6, C2, C4, C7, C10 -/

/-- C6: `unlock` follows exactly the release steps of the specification:
with the writer-active flag set it clears the flag and signals
`writeLock`; on the reader path it waits on `readerMutex`, decrements
the reader count, signals `writeLock` exactly when the count reaches
zero, and then signals `readerMutex`. -/
theorem C6_unlock_release_steps (writing : Bool) (reader_count : Int) :
    (writing = true →
      unlockActions writing reader_count =
        [SemAction.clearWriting, SemAction.signalWriteLock]) ∧
    (writing = false → 0 < reader_count →
      unlockActions writing reader_count =
        [SemAction.waitReaderMutex, SemAction.decReaderCount] ++
          (if reader_count = 1 then [SemAction.signalWriteLock] else []) ++
          [SemAction.signalReaderMutex]) := by
  constructor
  · intro hw
    simp [unlockActions, hw]
  · intro hw hpos
    simp only [unlockActions, hw, if_neg Bool.false_ne_true, if_pos hpos]
    have : reader_count - 1 = 0 ↔ reader_count = 1 := by omega
    rcases eq_or_ne reader_count 1 with h1 | h1 <;> simp [h1, this]

/-- C6, witness: the release steps at concrete inputs — a writer
release, a last-reader release (count 1), and a non-last reader release
(count 2). -/
theorem C6_unlock_release_steps_witness :
    unlockActions true 0 = [SemAction.clearWriting, SemAction.signalWriteLock] ∧
    unlockActions false 1 =
      [SemAction.waitReaderMutex, SemAction.decReaderCount,
        SemAction.signalWriteLock, SemAction.signalReaderMutex] ∧
    unlockActions false 2 =
      [SemAction.waitReaderMutex, SemAction.decReaderCount,
        SemAction.signalReaderMutex] := by
  refine ⟨(C6_unlock_release_steps true 0).1 rfl, ?_, ?_⟩
  · have h := (C6_unlock_release_steps false 1).2 rfl (by norm_num)
    simpa using h
  · have h := (C6_unlock_release_steps false 2).2 rfl (by norm_num)
    simpa using h

/-- C2: sending on an inactive mechanism is rejected before anything is
touched — the result is failure, the coordinator state (in particular
every mechanism's sent-counter) is unchanged. -/
theorem C2_inactive_send_rejected (st : CoordState) (m : IPCMechanism)
    (mgrSendOk : Bool) (entry : String)
    (h : st.mechanism_status m = false) :
    sendMessage st m mgrSendOk entry = (false, st) := by
  simp [sendMessage, h]

/-- C2, witness: a concrete inactive coordinator state on which
`sendMessage` fails and changes nothing. -/
def coordAllInactive : CoordState where
  mechanism_status := fun _ => false
  message_counts := fun _ => 0
  mechanism_logs := fun _ => []
  mechanism_pids := fun _ => none
  manager_active := fun _ => false

theorem C2_inactive_send_rejected_witness :
    sendMessage coordAllInactive IPCMechanism.pipes true "e" =
      (false, coordAllInactive) :=
  C2_inactive_send_rejected coordAllInactive IPCMechanism.pipes true "e" rfl

/-- C4: starting an already-active mechanism is a no-op success: the
result is `true`, the coordinator state (active flag, responder PID,
counters, logs) is returned unchanged, and the mechanism's create
routine is not invoked. -/
theorem C4_start_already_active (st : CoordState) (m : IPCMechanism)
    (createOk : Bool) (entry : String)
    (h : st.mechanism_status m = true) :
    startMechanism st m createOk entry = (true, st, false) := by
  simp [startMechanism, h]

/-- C4, witness: a concrete coordinator state with active pipes on which
`startMechanism` is a no-op success. -/
def coordPipesActive : CoordState where
  mechanism_status := fun m => m = IPCMechanism.pipes
  message_counts := fun _ => 3
  mechanism_logs := fun _ => ["[t] started"]
  mechanism_pids := fun _ => some 41
  manager_active := fun m => m = IPCMechanism.pipes

theorem C4_start_already_active_witness :
    startMechanism coordPipesActive IPCMechanism.pipes false "e" =
      (true, coordPipesActive, false) :=
  C4_start_already_active coordPipesActive IPCMechanism.pipes false "e" (by
    simp [coordPipesActive])

/-- Folding `logMechanismActivity` over a list of events, starting from
any ring of at most 1,000 entries, retains exactly the most recent
entries: the suffix of `acc ++ events` of length at most 1,000. -/
theorem logMechanismActivity_foldl (events : List String) :
    ∀ acc : List String, acc.length ≤ 1000 →
      events.foldl logMechanismActivity acc =
        (acc ++ events).drop ((acc ++ events).length - 1000) := by
  induction events with
  | nil =>
      intro acc hle
      simp [Nat.sub_eq_zero_of_le hle]
  | cons e es ih =>
      intro acc hle
      rcases Nat.lt_or_ge acc.length 1000 with hlt | hge
      · have hstep : logMechanismActivity acc e = acc ++ [e] := by
          simp only [logMechanismActivity, List.length_append, List.length_cons]
          rw [if_neg (by simp; omega)]
        rw [List.foldl_cons, hstep, ih (acc ++ [e]) (by simp; omega)]
        simp [List.append_assoc]
      · have hacc : acc.length = 1000 := Nat.le_antisymm hle hge
        have hstep : logMechanismActivity acc e = (acc ++ [e]).tail := by
          simp only [logMechanismActivity]
          rw [if_pos (by simp [hacc])]
        rw [List.foldl_cons, hstep,
          ih ((acc ++ [e]).tail) (by simp [hacc])]
        cases acc with
        | nil => simp at hacc
        | cons a acc' =>
            have hlen : acc'.length = 999 := by
              simpa using hacc
            simp only [List.cons_append, List.tail_cons]
            rw [show (acc' ++ [e] ++ es).length - 1000 = es.length + acc'.length - 999 by
              simp [hlen]
              omega]
            rw [show (a :: (acc' ++ e :: es)).length - 1000 = es.length + acc'.length - 998 by
              simp [hlen]]
            rw [show es.length + acc'.length - 998 = (es.length + acc'.length - 999) + 1 by
              omega]
            rw [List.drop_succ_cons]
            simp [List.append_assoc]

/-- The coordinator's retained log ring after a sequence of logged
events, starting from the empty ring. -/
def runLog (events : List String) : List String :=
  events.foldl logMechanismActivity []

/-- C7: after more than 1,000 logged events for one mechanism, the
retained log ring holds exactly 1,000 entries, namely the 1,000 most
recent entries in their original order (oldest evicted first). -/
theorem C7_log_ring_bound (events : List String)
    (h : 1000 < events.length) :
    runLog events = events.drop (events.length - 1000) ∧
      (runLog events).length = 1000 := by
  have key := logMechanismActivity_foldl events [] (by simp)
  simp only [List.nil_append] at key
  refine ⟨key, ?_⟩
  simp only [runLog, key, List.length_drop]
  omega

/-- C7, witness: 1,001 logged events retain exactly the last 1,000. -/
theorem C7_log_ring_bound_witness :
    runLog (List.replicate 1001 "e") =
        (List.replicate 1001 "e").drop ((List.replicate 1001 "e").length - 1000) ∧
      (runLog (List.replicate 1001 "e")).length = 1000 :=
  C7_log_ring_bound (List.replicate 1001 "e") (by rw [List.length_replicate]; omega)

/-- C10: the `messages_received` field of the status payload returned by
`getMechanismStatus` is the constant 0, for every coordinator state,
mechanism, and liveness probe; the coordinator state carries no received
counter at all, so only the sent-counter ever changes. -/
theorem C10_messages_received_always_zero (st : CoordState)
    (m : IPCMechanism) (aliveProbe : Int → Bool) :
    (getMechanismStatus st m aliveProbe).messages_received = 0 :=
  rfl

/-! ## Socket and pipe framing (socket_manager.cpp, pipe_manager.cpp)

Messages are embedded as byte lists (`List Nat`), matching the C++
view: `message.length()` counts bytes, `write` transmits raw bytes, and
the responder's `std::string msg(buf)` constructor truncates at the
first NUL byte. -/

/-- The line-terminator byte appended by `sendMessage`
(`message + "\n"`). -/
def newlineByte : Nat := 10

/-- The framing applied by `PipeManager::sendMessage` (part_001 line
1135) and `SocketManager::sendMessage` (socket_manager.cpp line 175):
append a single line terminator. -/
def frameMessage (message : List Nat) : List Nat :=
  message ++ [newlineByte]

/-- `SocketManager`'s send-relevant state: `is_active_`, `is_parent_`,
and whether `socket_fd_[1]` is still open, plus the `last_operation_`
record fields that `updateOperation` writes. -/
structure SocketOpRecord where
  message : List Nat
  bytes : Nat
  status : String
  deriving DecidableEq, Repr

structure SocketState where
  is_active : Bool
  is_parent : Bool
  fd_parent_open : Bool
  last_operation : SocketOpRecord
  deriving DecidableEq, Repr

/-- `MAX_MESSAGE_SIZE` in `SocketManager::sendMessage` (line 159):
the 8192-byte buffer minus one for the NUL terminator. -/
def MAX_MESSAGE_SIZE : Nat := 8192 - 1

/-- `SocketManager::sendMessage` (socket_manager.cpp lines 157-196).
`writeResult` is the return of the `write(2)` call (`none` = -1).
Returns the boolean result, the new state, and the bytes handed to
`write` (`none` when the kernel is never touched). -/
def socketSendMessage (st : SocketState) (message : List Nat)
    (writeResult : Option Nat) : Bool × SocketState × Option (List Nat) :=
  if MAX_MESSAGE_SIZE < message.length then
    (false, { st with last_operation := ⟨message, 0, "error_message_too_large"⟩ }, none)
  else if st.is_active = false ∨ st.is_parent = false ∨ st.fd_parent_open = false then
    (false, { st with last_operation := ⟨message, 0, "error_invalid_state"⟩ }, none)
  else
    let msg_final := frameMessage message
    match writeResult with
    | none =>
        (false, { st with last_operation := ⟨message, 0, "error_write"⟩ }, some msg_final)
    | some bytes_written =>
        (true, { st with last_operation := ⟨message, bytes_written, "sent"⟩ },
          some msg_final)

/-- The responder's decode step, shared by
`SocketManager::receiveMessage` / `runChildLoop` (buffer 8192, read cap
8191) and `PipeManager::receiveMessage` / `runChildLoop` (buffer 1024,
read cap 1023): read at most `bufCap` bytes, NUL-terminate, build a
C++ string (truncating at the first NUL byte), and strip one trailing
line terminator. -/
def decodeReceived (bufCap : Nat) (data : List Nat) : List Nat :=
  let got := data.take bufCap
  let msg := got.takeWhile (fun b => b ≠ 0)
  if msg.getLast? = some newlineByte then msg.dropLast else msg

/-- The pipe responder's decode (part_001 lines 1287-1330, buffer
`char buf[1024]`, `read(..., sizeof(buf) - 1)`). -/
def pipeDecode (data : List Nat) : List Nat :=
  decodeReceived 1023 data

/-- The socket responder's decode (socket_manager.cpp lines 199-242 and
308-351, buffer `char buf[8192]`, `read(..., sizeof(buf) - 1)`). -/
def socketDecode (data : List Nat) : List Nat :=
  decodeReceived 8191 data

/-! ## Theorems for claims C5 and C9 -/

/-- C5: a message longer than 8,191 bytes makes `SocketManager::sendMessage`
fail fast, recording `error_message_too_large` in the last-operation
record and performing no kernel write; a message of at most 8,191 bytes
from an active initiator with an open descriptor passes the cap check
and the framed message (with terminator) is handed to `write`. -/
theorem C5_socket_send_cap (st : SocketState) (message : List Nat)
    (writeResult : Option Nat) :
    (8191 < message.length →
      socketSendMessage st message writeResult =
        (false, { st with last_operation := ⟨message, 0, "error_message_too_large"⟩ },
          none)) ∧
    (message.length ≤ 8191 → st.is_active = true → st.is_parent = true →
      st.fd_parent_open = true →
      (socketSendMessage st message writeResult).2.2 = some (frameMessage message)) := by
  constructor
  · intro hbig
    simp [socketSendMessage, MAX_MESSAGE_SIZE, hbig]
  · intro hle ha hpar hfd
    simp only [socketSendMessage, MAX_MESSAGE_SIZE, ha, hpar, hfd]
    rw [if_neg (by omega)]
    rw [if_neg (by simp)]
    cases writeResult <;> rfl

/-- C5, witness: an idle socket state, an 8,192-byte message that is
rejected without a write, and a 2-byte message that is framed and
written. -/
def socketReady : SocketState where
  is_active := true
  is_parent := true
  fd_parent_open := true
  last_operation := ⟨[], 0, "ready"⟩

theorem C5_socket_send_cap_witness :
    socketSendMessage socketReady (List.replicate 8192 65) none =
      (false,
        { socketReady with
          last_operation := ⟨List.replicate 8192 65, 0, "error_message_too_large"⟩ },
        none) ∧
    (socketSendMessage socketReady [104, 105] (some 3)).2.2 =
      some (frameMessage [104, 105]) := by
  constructor
  · exact (C5_socket_send_cap socketReady (List.replicate 8192 65) none).1
      (by rw [List.length_replicate]; omega)
  · exact (C5_socket_send_cap socketReady [104, 105] (some 3)).2
      (by simp) rfl rfl rfl

/-- The decode of a framed message recovers the message whenever the
frame fits in one read and the message contains no NUL byte. -/
theorem decodeReceived_frameMessage (bufCap : Nat) (message : List Nat)
    (hnz : ∀ b ∈ message, b ≠ 0) (hlen : message.length + 1 ≤ bufCap) :
    decodeReceived bufCap (frameMessage message) = message := by
  have htake : (frameMessage message).take bufCap = frameMessage message := by
    apply List.take_of_length_le
    simpa [frameMessage] using hlen
  have hall : ∀ b ∈ frameMessage message, (fun b => decide (b ≠ 0)) b = true := by
    intro b hb
    simp only [frameMessage, List.mem_append, List.mem_singleton] at hb
    rcases hb with hb | hb
    · simpa using hnz b hb
    · simp [hb, newlineByte]
  have hwhile : (frameMessage message).takeWhile (fun b => decide (b ≠ 0)) =
      frameMessage message := List.takeWhile_eq_self_iff.mpr hall
  simp only [decodeReceived, htake]
  rw [hwhile]
  rw [if_pos (by simp [frameMessage, List.getLast?_concat])]
  simp [frameMessage]

/-- C9, amended: for every message that contains no NUL byte and whose
framed form fits in the responder's single read (at most 1,022 message
bytes for pipes, 8,190 for sockets), the responder's decode of what
`sendMessage` produced is the original message — framing appends one
line terminator and the receive path strips it. -/
theorem C9_roundtrip (message : List Nat) (hnz : ∀ b ∈ message, b ≠ 0) :
    (message.length ≤ 1022 → pipeDecode (frameMessage message) = message) ∧
    (message.length ≤ 8190 → socketDecode (frameMessage message) = message) := by
  constructor
  · intro hlen
    exact decodeReceived_frameMessage 1023 message hnz (by omega)
  · intro hlen
    exact decodeReceived_frameMessage 8191 message hnz (by omega)

/-- C9, witness: a concrete two-byte message round-trips through both
the pipe and the socket channel. -/
theorem C9_roundtrip_witness :
    pipeDecode (frameMessage [104, 105]) = [104, 105] ∧
    socketDecode (frameMessage [104, 105]) = [104, 105] :=
  ⟨(C9_roundtrip [104, 105] (by decide)).1 (by decide),
   (C9_roundtrip [104, 105] (by decide)).2 (by decide)⟩

/-- C9, counterexample: the single NUL byte is a valid UTF-8 string of
one byte, well within every cap, yet both responders decode its frame
to the empty message, because `std::string msg(buf)` truncates at the
first NUL byte. -/
theorem C9_counterexample :
    pipeDecode (frameMessage [0]) ≠ [0] ∧
    socketDecode (frameMessage [0]) ≠ [0] := by
  decide

/-! ## The two `semaphoreOp` variants (C3)

The repository contains two implementations of
`SharedMemoryManager::semaphoreOp`.  The one in
`backend/src/ipc/shmem_manager.cpp` (lines 350-365) calls plain
`semop`, which blocks with no bound; on `EINTR` it retries itself.  The
one in part_008 (lines 494-543) calls `semtimedop` with a 5-second
timeout and retries at most 3 times on `EINTR`.

Both are embedded over the sequence of successive kernel-call returns.
A blocking `semop` on an unavailable semaphore simply never returns, so
the blocking variant is a function of the *finite prefix* of returns
observed so far and yields `none` while the call is still inside a
blocked `semop`. -/

/-- Outcome of one `semop` call: success, `-1` with `errno == EINTR`,
or `-1` with another `errno`.  A blocked call has no outcome. -/
inductive SemOpResult where
  | ok
  | eintr
  | err
  deriving DecidableEq, Repr

/-- The blocking `semaphoreOp` of backend/src/ipc/shmem_manager.cpp
(lines 350-365), as a function of the successive `semop` returns:
`some b` is the value it returns, `none` means it is still blocked in
`semop` after the listed returns.  On `EINTR` it retries without any
bound; there is no timeout path at all. -/
def semaphoreOpBlocking : List SemOpResult → Option Bool
  | [] => none
  | SemOpResult.ok :: _ => some true
  | SemOpResult.err :: _ => some false
  | SemOpResult.eintr :: rest => semaphoreOpBlocking rest

/-- Outcome of one `semtimedop` call with the 5-second bound: success,
`EINTR`, `EAGAIN`/`ETIMEDOUT`, or another error.  `semtimedop` always
returns within the bound, so every attempt has an outcome. -/
inductive SemTimedResult where
  | ok
  | eintr
  | timedout
  | err
  deriving DecidableEq, Repr

/-- The retry loop of the `semtimedop`-based `semaphoreOp` (part_008
lines 494-543): at most `fuel` attempts, attempt `i` observing
`outcomes i`. -/
def semTimedGo (outcomes : Nat → SemTimedResult) : Nat → Nat → Bool
  | 0, _ => false
  | fuel + 1, i =>
    match outcomes i with
    | SemTimedResult.ok => true
    | SemTimedResult.eintr => semTimedGo outcomes fuel (i + 1)
    | SemTimedResult.timedout => false
    | SemTimedResult.err => false

/-- The `semtimedop`-based `semaphoreOp` (part_008 lines 494-543):
`max_retries = 3`. -/
def semaphoreOpTimed (outcomes : Nat → SemTimedResult) : Bool :=
  semTimedGo outcomes 3 0

/-- C3, counterexample: the `semaphoreOp` in
backend/src/ipc/shmem_manager.cpp — the variant `lockForRead` /
`lockForWrite` of the backend call — has no timeout: a wait on an
unavailable semaphore never returns (here after the empty sequence of
`semop` returns, and still after ten `EINTR` interruptions), so no
`SynchronizationTimeout` failure is ever reported to the caller. -/
theorem C3_counterexample :
    semaphoreOpBlocking [] = none ∧
    semaphoreOpBlocking (List.replicate 10 SemOpResult.eintr) = none := by
  decide

/-- C3, amended: the `semtimedop`-based `semaphoreOp` variant (part_008)
returns failure to the caller instead of blocking forever — on a timed-out
acquisition it returns `false`, and even under unbounded `EINTR`
interruption it gives up after its 3 bounded attempts — while the plain
`semop` variant in backend/src/ipc/shmem_manager.cpp remains blocked
with no bound (arbitrarily many `EINTR` retries never produce a
return). -/
theorem C3_timed_variant_bounded (outcomes : Nat → SemTimedResult) (n : Nat) :
    (outcomes 0 = SemTimedResult.timedout → semaphoreOpTimed outcomes = false) ∧
    ((∀ i, outcomes i = SemTimedResult.eintr) → semaphoreOpTimed outcomes = false) ∧
    semaphoreOpBlocking (List.replicate n SemOpResult.eintr) = none := by
  refine ⟨?_, ?_, ?_⟩
  · intro h
    simp [semaphoreOpTimed, semTimedGo, h]
  · intro h
    simp [semaphoreOpTimed, semTimedGo, h 0, h 1, h 2]
  · induction n with
    | zero => rfl
    | succ k ih => simpa [List.replicate_succ, semaphoreOpBlocking] using ih

/-- C3, witness: the timed variant fails on an immediate timeout and
under constant `EINTR`; the blocking variant is still blocked after
five `EINTR` interruptions. -/
theorem C3_timed_variant_bounded_witness :
    semaphoreOpTimed (fun _ => SemTimedResult.timedout) = false ∧
    semaphoreOpTimed (fun _ => SemTimedResult.eintr) = false ∧
    semaphoreOpBlocking (List.replicate 5 SemOpResult.eintr) = none :=
  ⟨(C3_timed_variant_bounded (fun _ => SemTimedResult.timedout) 0).1 rfl,
   (C3_timed_variant_bounded (fun _ => SemTimedResult.eintr) 0).2.1 (fun _ => rfl),
   (C3_timed_variant_bounded (fun _ => SemTimedResult.ok) 5).2.2⟩

/-! ## `IPCCommand::fromJSON` (C8)

Embedded faithfully from ipc_coordinator.cpp lines 81-150, including
the `extractStringValue` helper's scan for an unescaped closing
quote. -/

/-- `std::string::find` of a pattern: index of its first occurrence. -/
def findPattern (pat : List Char) : List Char → Option Nat
  | [] => if pat.isEmpty then some 0 else none
  | c :: rest =>
    if pat.isPrefixOf (c :: rest) then some 0
    else (findPattern pat rest).map (fun i => i + 1)

/-- The scan of `extractStringValue` (lines 90-108): starting just after
the opening quote, find the first `"` not preceded by a backslash and
return the characters before it; `prev` is the preceding character
(initially the pattern's own closing quote).  `none` when the scan runs
off the end of the input (the helper then returns the empty string). -/
def scanQuotedValue : Option Char → List Char → Option (List Char)
  | _, [] => none
  | prev, c :: rest =>
    if c = '"' ∧ prev ≠ some '\\' then some []
    else
      match scanQuotedValue (some c) rest with
      | some v => some (c :: v)
      | none => none

/-- `extractStringValue` in `IPCCommand::fromJSON` (lines 90-108):
locate `"key":"` and take the value up to the first unescaped quote;
empty string when the key is missing or the value is unterminated. -/
def extractStringValue (json key : String) : String :=
  let pat : List Char := '"' :: (key.toList ++ ['"', ':', '"'])
  match findPattern pat json.toList with
  | none => ""
  | some start =>
    match scanQuotedValue (some '"') (json.toList.drop (start + pat.length)) with
    | some v => String.mk v
    | none => ""

/-- The mechanism field decoding inside `IPCCommand::fromJSON` (lines
126-135): unknown or missing values default to `PIPES`. -/
def parseMechanismValue (mechanism_value : String) : IPCMechanism :=
  if mechanism_value = "pipes" then IPCMechanism.pipes
  else if mechanism_value = "sockets" then IPCMechanism.sockets
  else if mechanism_value = "shared_memory" then IPCMechanism.shared_memory
  else IPCMechanism.pipes

/-- The command object built by `IPCCommand::fromJSON`
(`IPCCommand` in ipc_coordinator.h). -/
structure IPCCommand where
  action : String
  mechanism : IPCMechanism
  message : String
  deriving DecidableEq, Repr

/-- `IPCCommand::fromJSON` (ipc_coordinator.cpp lines 81-150): parse
and validate; `none` is the `return false` path. -/
def IPCCommand.fromJSON (json : String) : Option IPCCommand :=
  if json.isEmpty ∨ json.toList.contains '\x7b' = false ∨
      json.toList.contains '\x7d' = false then
    none
  else
    let action_value := extractStringValue json "action"
    if action_value = "" then none
    else if action_value = "start" ∨ action_value = "stop" ∨ action_value = "send" ∨
        action_value = "status" ∨ action_value = "logs" then
      let mechanism_value := extractStringValue json "mechanism"
      let mechanism := parseMechanismValue mechanism_value
      let message := extractStringValue json "message"
      if (action_value = "start" ∨ action_value = "stop") ∧ mechanism_value = "" then
        none
      else if action_value = "send" ∧ (mechanism_value = "" ∨ message = "") then
        none
      else
        some { action := action_value, mechanism := mechanism, message := message }
    else none

/-- C8: command construction validates its input — whenever
`IPCCommand::fromJSON` accepts a JSON input, a `start`/`stop` command
has a mechanism supplied, and a `send` command has both a mechanism and
a non-empty message supplied; otherwise construction reports failure. -/
theorem C8_fromJSON_validation (json : String) (c : IPCCommand)
    (h : IPCCommand.fromJSON json = some c) :
    ((c.action = "start" ∨ c.action = "stop") →
      extractStringValue json "mechanism" ≠ "") ∧
    (c.action = "send" →
      extractStringValue json "mechanism" ≠ "" ∧ c.message ≠ "") := by
  simp only [IPCCommand.fromJSON] at h
  split_ifs at h
  obtain rfl : _ = c := Option.some_injective _ h
  constructor
  · intro hact hme
    tauto
  · intro hact
    refine ⟨fun hme => ?_, fun hme => ?_⟩ <;> tauto

/-- A concrete well-formed `send` command input. -/
def jsonSendExample : String :=
  "\x7b\"action\":\"send\",\"mechanism\":\"pipes\",\"message\":\"oi\"\x7d"

/-- C8, witness: the validation theorem applied to a concrete accepted
`send` command: its mechanism field is supplied and its message is
non-empty. -/
theorem C8_fromJSON_validation_witness :
    extractStringValue jsonSendExample "mechanism" ≠ "" ∧
    ("oi" : String) ≠ "" :=
  C8_fromJSON_validation jsonSendExample
    { action := "send", mechanism := IPCMechanism.pipes, message := "oi" }
    (by decide) |>.2 rfl

end IPCProject
